import Mathlib

/-!
Shallow embedding of `pvforecast_api/pvforecast.py` (SheffieldSolar
PV_Forecast-API client) and proofs about the claims of its specification.

Conventions of the embedding:
* Python `datetime.datetime` values are modelled by `PVF.Datetime`
  (seconds granularity; `tzinfo` is an optional UTC offset in minutes,
  `none` meaning a naive datetime).
* Python exceptions are modelled by `PVF.PyError`; `PVForecastException`
  is `PyError.pvfExc msg` carrying the raw message (the class constructor
  appends " (in 'pvforecast.py')" uniformly to every message, which we
  leave implicit).
* The network is modelled by oracles: `fetch_url` works on a function
  from attempt index to transport-level outcome, while the paginator
  works on an `Oracle` holding the discovery endpoint's reply and the
  decoded per-forecast-base payloads.
* String helpers (`strReplace`, `lowerStr`, `strContains`) reimplement
  the Python `str.replace`, `str.lower` and `in` operations with
  structural recursion so that all definitions evaluate by `decide`/`rfl`.
-/

namespace PVF

/-- Left-pad the decimal representation of `n` with zeros to `w` characters,
as Python's `%0Nd` formatting does. -/
def pad (w n : Nat) : String :=
  let s := toString n
  String.mk (List.replicate (w - s.length) '0') ++ s

/-- Replace, left to right and without overlap, every occurrence of `pat`
(assumed nonempty by all callers) in a character list; fuel-driven so that
the recursion is structural. Models Python's `str.replace`. -/
def replaceFuel (pat rep : List Char) : Nat → List Char → List Char
  | 0, cs => cs
  | _ + 1, [] => []
  | n + 1, c :: rest =>
    if pat.isPrefixOf (c :: rest) then
      rep ++ replaceFuel pat rep n (rest.drop (pat.length - 1))
    else
      c :: replaceFuel pat rep n rest

/-- Python's `s.replace(pat, rep)` for a nonempty pattern. -/
def strReplace (s pat rep : String) : String :=
  if pat.isEmpty then s
  else String.mk (replaceFuel pat.toList rep.toList s.toList.length s.toList)

/-- Python's `s.lower()` (ASCII, as used on the column names). -/
def lowerStr (s : String) : String :=
  String.mk (s.toList.map Char.toLower)

/-- Python's `needle in hay` substring test. -/
def strContains (hay needle : String) : Bool :=
  (List.range (hay.length + 1)).any
    (fun i => needle.toList.isPrefixOf (hay.toList.drop i))

/-- Gregorian leap year, as `calendar.isleap` / `datetime`'s calendar. -/
def isLeap (y : Nat) : Bool :=
  y % 4 == 0 && (y % 100 != 0 || y % 400 == 0)

/-- Days in a month of the proleptic Gregorian calendar. -/
def daysInMonth (y m : Nat) : Nat :=
  if m == 2 then (if isLeap y then 29 else 28)
  else if m == 4 || m == 6 || m == 9 || m == 11 then 30
  else 31

/-- Days in year `y` strictly before month `m`. -/
def daysBeforeMonth (y m : Nat) : Nat :=
  (List.range (m - 1)).foldl (fun acc i => acc + daysInMonth y (i + 1)) 0

/-- Proleptic Gregorian ordinal of a date, as `datetime.date.toordinal`. -/
def toOrdinal (y m d : Nat) : Nat :=
  365 * (y - 1) + (y - 1) / 4 - (y - 1) / 100 + (y - 1) / 400
    + daysBeforeMonth y m + d

/-- Python `datetime.datetime` at seconds granularity. `tzinfo` is the UTC
offset in minutes (`none` = naive datetime). -/
structure Datetime where
  year : Nat
  month : Nat
  day : Nat
  hour : Nat
  minute : Nat
  second : Nat
  tzinfo : Option Int
deriving DecidableEq, Repr

/-- The UTC instant of a datetime in seconds (offset-adjusted), the key by
which Python orders timezone-aware datetimes. -/
def dtKey (dt : Datetime) : Int :=
  (toOrdinal dt.year dt.month dt.day : Int) * 86400
    + dt.hour * 3600 + dt.minute * 60 + dt.second
    - 60 * (dt.tzinfo.getD 0)

/-- Python's `<` on (aware) datetimes. -/
def dtLt (a b : Datetime) : Bool :=
  dtKey a < dtKey b

/-- Python's `"%+03d:%02d"`-style UTC offset rendering used by `isoformat`. -/
def offsetStr (off : Int) : String :=
  if off < 0 then
    "-" ++ pad 2 ((-off).toNat / 60) ++ ":" ++ pad 2 ((-off).toNat % 60)
  else
    "+" ++ pad 2 (off.toNat / 60) ++ ":" ++ pad 2 (off.toNat % 60)

/-- Python's `datetime.isoformat()` (microseconds zero, so they are omitted). -/
def isoformat (dt : Datetime) : String :=
  pad 4 dt.year ++ "-" ++ pad 2 dt.month ++ "-" ++ pad 2 dt.day ++ "T"
    ++ pad 2 dt.hour ++ ":" ++ pad 2 dt.minute ++ ":" ++ pad 2 dt.second
    ++ (match dt.tzinfo with
        | none => ""
        | some off => offsetStr off)

/-- `PVForecast._iso8601_ss`: `dt.isoformat().replace("+00:00", "Z")`. -/
def iso8601_ss (dt : Datetime) : String :=
  strReplace (isoformat dt) "+00:00" "Z"

/-- Python's `strftime("%H:%M")` of a datetime (zero-padded). -/
def fmtHM (dt : Datetime) : String :=
  pad 2 dt.hour ++ ":" ++ pad 2 dt.minute

/-- Value of a decimal digit character, `none` for a non-digit. -/
def parseDigit (c : Char) : Option Nat :=
  if c.isDigit then some (c.toNat - 48) else none

/-- The alternatives of CPython `_strptime`'s regex for `%H`
(`2[0-3]|[0-1]\d|\d`), in order, with the unconsumed remainder. -/
def hAlts (cs : List Char) : List (Nat × List Char) :=
  (match cs with
   | c0 :: c1 :: rest =>
     (if c0 == '2' && c1.isDigit && c1.toNat ≤ 51 then
        [(20 + (c1.toNat - 48), rest)]
      else [])
     ++ (if (c0 == '0' || c0 == '1') && c1.isDigit then
           [(10 * (c0.toNat - 48) + (c1.toNat - 48), rest)]
         else [])
   | _ => [])
  ++ (match cs with
      | c0 :: rest => if c0.isDigit then [(c0.toNat - 48, rest)] else []
      | _ => [])

/-- The alternatives of CPython `_strptime`'s regex for `%M`
(`[0-5]\d|\d`), in order, with the unconsumed remainder. -/
def mAlts (cs : List Char) : List (Nat × List Char) :=
  (match cs with
   | c0 :: c1 :: rest =>
     if c0.isDigit && c0.toNat ≤ 53 && c1.isDigit then
       [(10 * (c0.toNat - 48) + (c1.toNat - 48), rest)]
     else []
   | _ => [])
  ++ (match cs with
      | c0 :: rest => if c0.isDigit then [(c0.toNat - 48, rest)] else []
      | _ => [])

/-- Python's `datetime.strptime(t, "%H:%M")`, modelled with the same
backtracking the `re` module performs: `%H` accepts a one- or two-digit
hour, `%M` a one- or two-digit minute, the whole string must be consumed.
Returns `none` exactly when `strptime` raises `ValueError`. -/
def strptimeHM (s : String) : Option (Nat × Nat) :=
  (hAlts s.toList).findSome? (fun hr =>
    match hr.2 with
    | ':' :: rest2 =>
      (mAlts rest2).findSome? (fun mr =>
        if mr.2.isEmpty then some (hr.1, mr.1) else none)
    | _ => none)

/-- Parse exactly two decimal digits. -/
def parse2 : List Char → Option (Nat × List Char)
  | a :: b :: rest => do
    let x ← parseDigit a
    let y ← parseDigit b
    pure (10 * x + y, rest)
  | _ => none

/-- Parse exactly four decimal digits. -/
def parse4 : List Char → Option (Nat × List Char)
  | a :: b :: c :: d :: rest => do
    let x ← parseDigit a
    let y ← parseDigit b
    let z ← parseDigit c
    let w ← parseDigit d
    pure (1000 * x + 100 * y + 10 * z + w, rest)
  | _ => none

/-- Parse the optional `±HH:MM` UTC offset accepted by
`datetime.fromisoformat`; `some none` when the string carries no offset. -/
def parseOffset : List Char → Option (Option Int)
  | [] => some none
  | '+' :: rest => do
    let hm ← parse2 rest
    match hm.2 with
    | ':' :: r2 => do
      let mm ← parse2 r2
      if mm.2.isEmpty then pure (some (Int.ofNat (hm.1 * 60 + mm.1))) else none
    | _ => none
  | '-' :: rest => do
    let hm ← parse2 rest
    match hm.2 with
    | ':' :: r2 => do
      let mm ← parse2 r2
      if mm.2.isEmpty then pure (some (-(Int.ofNat (hm.1 * 60 + mm.1)))) else none
    | _ => none
  | _ => none

/-- Parse the `HH[:MM[:SS]][±HH:MM]` time-and-offset tail accepted by
`datetime.fromisoformat` (fractional seconds, which the API never emits,
are not modelled and yield `none`). -/
def parseTimeTail (cs : List Char) : Option (Nat × Nat × Nat × Option Int) := do
  let hh ← parse2 cs
  match hh.2 with
  | ':' :: r2 => do
    let mm ← parse2 r2
    match mm.2 with
    | ':' :: r4 => do
      let ss ← parse2 r4
      let off ← parseOffset ss.2
      pure (hh.1, mm.1, ss.1, off)
    | r3 => do
      let off ← parseOffset r3
      pure (hh.1, mm.1, 0, off)
  | r1 => do
    let off ← parseOffset r1
    pure (hh.1, 0, 0, off)

/-- Python's `datetime.fromisoformat` on the `YYYY-MM-DD[*HH[:MM[:SS]]][±HH:MM]`
strings the API produces. `none` models the `ValueError` raised on any
other input. -/
def fromiso (s : String) : Option Datetime := do
  let yy ← parse4 s.toList
  match yy.2 with
  | '-' :: r2 => do
    let mo ← parse2 r2
    match mo.2 with
    | '-' :: r4 => do
      let dd ← parse2 r4
      let comps ←
        match dd.2 with
        | [] => pure (0, 0, 0, (none : Option Int))
        | _sep :: r6 => parseTimeTail r6
      if 1 ≤ mo.1 && mo.1 ≤ 12 && 1 ≤ dd.1 && dd.1 ≤ daysInMonth yy.1 mo.1
          && comps.1 ≤ 23 && comps.2.1 ≤ 59 && comps.2.2.1 ≤ 59 then
        pure ⟨yy.1, mo.1, dd.1, comps.1, comps.2.1, comps.2.2.1, comps.2.2.2⟩
      else none
    | _ => none
  | _ => none

/-- Python exceptions that the validated code paths can raise.
`pvfExc msg` is `PVForecastException(msg)` (whose constructor appends
" (in 'pvforecast.py')" to every message, left implicit here). -/
inductive PyError where
  | attributeError
  | typeError
  | valueError
  | pvfExc (msg : String)
deriving DecidableEq, Repr

/-- Python values that can reach `_validate_start_end`: only
`datetime.datetime` and `datetime.time` carry a `tzinfo` attribute. -/
inductive PyVal where
  | pyDatetime (dt : Datetime)
  | pyDate (y m d : Nat)
  | pyTime (h mi : Nat) (tz : Option Int)
  | pyStr (s : String)
  | pyInt (n : Int)
deriving DecidableEq, Repr

/-- Python's `isinstance(v, datetime)`. -/
def isDatetimeVal : PyVal → Bool
  | .pyDatetime _ => true
  | _ => false

/-- Whether the value's Python class defines a `tzinfo` attribute. -/
def hasTzinfoAttr : PyVal → Bool
  | .pyDatetime _ => true
  | .pyTime _ _ _ => true
  | _ => false

/-- Python attribute access `v.tzinfo`; raises `AttributeError` when the
class has no such attribute. -/
def tzinfoAttr : PyVal → Except PyError (Option Int)
  | .pyDatetime dt => .ok dt.tzinfo
  | .pyTime _ _ tz => .ok tz
  | _ => .error .attributeError

/-- `PVForecast._validate_start_end(start, end)`, line for line:
`type_check` is computed first (pure `isinstance` tests); computing
`tz_check` dereferences `start.tzinfo` and — only if that is not `None` —
`end.tzinfo` (Python's `or` short-circuits); only then is
`type_check or tz_check` consulted; finally `end < start` is tested
(comparing a non-datetime would raise `TypeError`, an unreachable branch
since `type_check` already raised). -/
def validate_start_end (start end_ : PyVal) : Except PyError Unit := do
  let type_check := !(isDatetimeVal start && isDatetimeVal end_)
  let s_tz ← tzinfoAttr start
  let tz_check ←
    if s_tz.isNone then pure true
    else do
      let e_tz ← tzinfoAttr end_
      pure e_tz.isNone
  if type_check || tz_check then
    .error (.pvfExc "start and end must be timezone-aware Python datetime objects.")
  else
    match start, end_ with
    | .pyDatetime sd, .pyDatetime ed =>
      if dtLt ed sd then .error (.pvfExc "end must be later than start.")
      else .ok ()
    | _, _ => .error .typeError

/-- The state a `PVForecast` client holds after construction: credentials,
the retry budget and the two cached reference-id lists (`self.pes_ids`,
`self.gsp_ids`, the unique ids of the fetched reference DataFrames). -/
structure ClientState where
  user_id : String
  api_key : String
  retries : Nat
  pes_ids : List Int
  gsp_ids : List Int

/-- `PVForecast._validate_inputs`. The `isinstance` checks on
`entity_type` and `extra_fields` are enforced by the Lean types (both are
`String`, as in every call site of the source); the remaining checks are
modelled in source order. Note the asymmetry of the source: the
`entity_id != 0` escape applies only to the `"pes"` branch, while the
`"gsp"` branch requires membership in `gsp_ids` even for id 0. -/
def validate_inputs (st : ClientState) (forecast_base_gmt : Option Datetime)
    (entity_type : String) (entity_id : Int) (extra_fields : String) :
    Except PyError Unit :=
  if (match forecast_base_gmt with
      | some dt => dt.tzinfo.isNone
      | none => false) then
    .error (.pvfExc "The forecast_base_gmt must be a timezone-aware Python datetime object.")
  else if !(entity_type == "pes" || entity_type == "gsp") then
    .error (.pvfExc "The entity_type must be either 'pes' or 'gsp'.")
  else if entity_type == "pes" then
    if entity_id != 0 && !(st.pes_ids.contains entity_id) then
      .error (.pvfExc ("The pes_id " ++ toString entity_id ++ " was not found."))
    else .ok ()
  else if entity_type == "gsp" then
    if !(st.gsp_ids.contains entity_id) then
      .error (.pvfExc ("The gsp_id " ++ toString entity_id ++ " was not found."))
    else .ok ()
  else .ok ()

/-- `PVForecast._compile_params`: forecast-base first (omitted when
`None`), then `extra_fields` (omitted when empty, otherwise verbatim),
then the constructor-supplied credential parameters. -/
def compile_params (st : ClientState) (forecast_base_gmt : Option Datetime)
    (extra_fields : String) : List (String × String) :=
  (match forecast_base_gmt with
   | some dt => [("forecast_base_GMT", iso8601_ss dt)]
   | none => [])
  ++ (if extra_fields != "" then [("extra_fields", extra_fields)] else [])
  ++ [("user_id", st.user_id), ("key", st.api_key), ("data_format", "json")]

/-- Ordered lookup in a compiled parameter list. -/
def lookupParam (params : List (String × String)) (k : String) : Option String :=
  (params.find? (fun p => p.1 == k)).map (fun p => p.2)

/-- What `requests.get` yields on one attempt: an HTTP response with a
status code and body, or a transport-level failure
(`requests.exceptions.ConnectionError` and kin — not an `HTTPError`). -/
inductive NetResult where
  | response (status : Nat) (body : String)
  | connError
deriving DecidableEq, Repr

/-- How a `_fetch_url` call ends. `okBody` carries the 200 payload
(`json.loads` is applied downstream); `commError` is
`PVForecastException("Error communicating with the PV_Forecast API.")`;
`authInvalid`/`authNoAccess` are the two authentication-failure
exceptions; `netError` is the uncaught `requests` connection exception. -/
inductive FetchResult where
  | okBody (body : String)
  | commError
  | authInvalid
  | authNoAccess
  | netError
deriving DecidableEq, Repr

/-- Observable outcome of `_fetch_url`: the result, the sequence of
backoff delays slept (in seconds), and how many HTTP requests were issued. -/
structure FetchOut where
  result : FetchResult
  sleeps : List Rat
  attempts : Nat
deriving DecidableEq, Repr

/-- Whether `page.raise_for_status()` raises `HTTPError` for this attempt
(it does exactly for 4xx/5xx status codes). -/
def isHttpFail : NetResult → Bool
  | .response status _ => 400 ≤ status && status < 600
  | .connError => false

/-- The `while not success and try_counter < retries + 1` loop of
`PVForecast._fetch_url`. `budget` is the number of attempts still
allowed, `idx` the number of requests already issued, `delay` the current
backoff. On `HTTPError` the loop sleeps `delay`, doubles it and retries;
the two authentication markers in a 200 body raise immediately (their
`PVForecastException` is not an `HTTPError`, so the `except` clause does
not catch it); a transport error is not caught at all. When the budget is
exhausted without success, `PVForecastException("Error communicating…")`. -/
def fetchGo (net : Nat → NetResult) :
    Nat → Nat → Rat → List Rat → FetchOut
  | 0, idx, _, sleeps => ⟨.commError, sleeps, idx⟩
  | budget + 1, idx, delay, sleeps =>
    match net idx with
    | .connError => ⟨.netError, sleeps, idx + 1⟩
    | .response status body =>
      if 400 ≤ status && status < 600 then
        fetchGo net budget (idx + 1) (delay * 2) (sleeps ++ [delay])
      else if status == 200 && strContains body "Your api key is not valid" then
        ⟨.authInvalid, sleeps, idx + 1⟩
      else if status == 200 && strContains body "Your account does not give access" then
        ⟨.authNoAccess, sleeps, idx + 1⟩
      else ⟨.okBody body, sleeps, idx + 1⟩

/-- `PVForecast._fetch_url`, driven by the oracle `net` giving the
outcome of each successive request: up to `retries + 1` attempts,
starting from a delay of 0.5. -/
def fetch_url (retries : Nat) (net : Nat → NetResult) : FetchOut :=
  fetchGo net (retries + 1) 0 ((1 : Rat) / 2) []

/-- The geometric backoff schedule: `n` delays starting at `d`, doubling. -/
def geom (d : Rat) : Nat → List Rat
  | 0 => []
  | n + 1 => d :: geom (d * 2) n

/-- The constructor's default retry budget (`retries=3`). -/
def defaultRetries : Nat := 3

/-- One cell of a decoded API row, as the Python objects that can appear
there: `vNone` is `None`, `vNaN` the float `nan` sentinel, `vNaT` the
pandas missing-timestamp sentinel, `vTimestamp` a parsed timestamp. -/
inductive Value where
  | vInt (n : Int)
  | vFloat (x : Rat)
  | vStr (s : String)
  | vNone
  | vNaN
  | vNaT
  | vTimestamp (dt : Datetime)
deriving DecidableEq, Repr

/-- The `nan if d is None else d` map of `_convert_tuple_to_df`. -/
def noneToNan (v : Value) : Value :=
  match v with
  | .vNone => .vNaN
  | v => v

/-- `pd.to_datetime` applied to one cell of a timestamp column, for the
value shapes the API produces: an ISO timestamp string (a trailing "Z"
accepted as UTC) becomes a timestamp, the missing-value sentinels become
`NaT`, an already-parsed timestamp is unchanged. -/
def pdToDatetime (v : Value) : Value :=
  match v with
  | .vStr s =>
    match fromiso (strReplace s "Z" "+00:00") with
    | some dt => .vTimestamp dt
    | none => .vStr s
  | .vNaN => .vNaT
  | .vNone => .vNaT
  | v => v

/-- A pandas DataFrame: ordered column labels plus rows of cells. -/
structure DataFrame where
  columns : List String
  rows : List (List Value)
deriving DecidableEq, Repr

/-- Assignment to one labelled column of a row
(`data.<col> = f(data.<col>)`): the cells at positions whose label
equals `name` are transformed. -/
def applyColRow (name : String) (cols : List String) (r : List Value) :
    List Value :=
  (r.zip cols).map (fun p => if p.2 == name then pdToDatetime p.1 else p.1)

/-- Assignment to one labelled column of a DataFrame. -/
def applyCol (df : DataFrame) (name : String) : DataFrame :=
  ⟨df.columns, df.rows.map (applyColRow name df.columns)⟩

/-- `PVForecast._convert_tuple_to_df(data, columns)`: map `None` cells to
`nan`, build the DataFrame with lower-cased column labels, then parse the
`forecast_base_gmt` and `datetime_gmt` columns (when present) with
`pd.to_datetime`. (The `data = [data] if isinstance(data, tuple) else
data` wrapping of a bare single row is outside this model: `data` is
already a list of rows, as in every call site.) -/
def convert_tuple_to_df (data : List (List Value)) (columns : List String) :
    DataFrame :=
  let data2 := data.map (fun t => t.map noneToNan)
  let df : DataFrame := ⟨columns.map lowerStr, data2⟩
  let df2 :=
    if df.columns.contains "forecast_base_gmt" then
      applyCol df "forecast_base_gmt"
    else df
  let df3 :=
    if df2.columns.contains "datetime_gmt" then
      applyCol df2 "datetime_gmt"
    else df2
  df3

/-- The remote API as the paginator sees it (post-`json.loads`):
`bases` is the reply of the `forecast_bases_list` discovery endpoint, and
`fetchData fb` the decoded `(data, meta)` payload of the single-forecast
endpoint for forecast base `fb` (`none` = "latest"). -/
structure Oracle where
  bases : List String
  fetchData : Option Datetime → List (List Value) × List String

/-- A network request issued by the client, with its query parameters. -/
inductive Request where
  | discovery (gsp_id : Int) (params : List (String × String))
  | forecastFetch (entity_type : String) (entity_id : Int)
      (params : List (String × String))
deriving DecidableEq, Repr

/-- `PVForecast._get_forecast` (the body of `get_forecast` and of each
paginator iteration): validate, compile the parameters, then query the
API. Returns the decoded `(data, meta)` pair together with the list of
network requests issued. -/
def get_forecast (st : ClientState) (orc : Oracle)
    (forecast_base_gmt : Option Datetime) (entity_type : String)
    (entity_id : Int) (extra_fields : String) :
    Except PyError (List (List Value) × List String) × List Request :=
  match validate_inputs st forecast_base_gmt entity_type entity_id extra_fields with
  | .error e => (.error e, [])
  | .ok _ =>
    let params := compile_params st forecast_base_gmt extra_fields
    (.ok (orc.fetchData forecast_base_gmt),
     [.forecastFetch entity_type entity_id params])

/-- `PVForecast.get_forecast_bases(start, end, forecast_type)`: validate
the window, map the forecast type to the discovery endpoint variant
(national = 0, regional = 1), then query the discovery endpoint. -/
def get_forecast_bases (st : ClientState) (orc : Oracle)
    (start end_ : Datetime) (forecast_type : String) :
    Except PyError (List String) × List Request :=
  match validate_start_end (.pyDatetime start) (.pyDatetime end_) with
  | .error e => (.error e, [])
  | .ok _ =>
    if lowerStr forecast_type == "national" then
      (.ok orc.bases,
       [.discovery 0 [("start", iso8601_ss start), ("end", iso8601_ss end_)]])
    else if lowerStr forecast_type == "regional" then
      (.ok orc.bases,
       [.discovery 1 [("start", iso8601_ss start), ("end", iso8601_ss end_)]])
    else
      (.error (.pvfExc "forecast_type must be 'national' or 'regional'."), [])

/-- The `for fbase in fbases` loop of `get_forecasts`: fetch each
discovered base whose clock time matches the allow-list (every base when
the allow-list is empty); append the rows of a non-empty fetch and track
its column names. -/
def pageLoop (st : ClientState) (orc : Oracle) (fbts : List String)
    (entity_type : String) (entity_id : Int) (extra_fields : String) :
    List Datetime → List (List Value) → List String → List Request →
    Except PyError (List (List Value) × List String) × List Request
  | [], data, meta, log => (.ok (data, meta), log)
  | fb :: rest, data, meta, log =>
    if fbts.isEmpty || fbts.contains (fmtHM fb) then
      match get_forecast st orc (some fb) entity_type entity_id extra_fields with
      | (.error e, l) => (.error e, log ++ l)
      | (.ok dm, l) =>
        if dm.1.isEmpty then
          pageLoop st orc fbts entity_type entity_id extra_fields rest
            data meta (log ++ l)
        else
          pageLoop st orc fbts entity_type entity_id extra_fields rest
            (data ++ dm.1) dm.2 (log ++ l)
    else
      pageLoop st orc fbts entity_type entity_id extra_fields rest data meta log

/-- `PVForecast.get_forecasts(start, end, forecast_base_times, …)`:
validate the window and the selector, check every allow-list entry
against `strptime("%H:%M")`, discover the forecast bases in the window
(national when `entity_id == 0`, else regional), parse each returned
string (a trailing "Z" as UTC), and run the fetch loop. A base string
that `fromisoformat` rejects raises an uncaught `ValueError`. -/
def get_forecasts (st : ClientState) (orc : Oracle) (start end_ : Datetime)
    (forecast_base_times : List String) (entity_type : String)
    (entity_id : Int) (extra_fields : String) :
    Except PyError (List (List Value) × List String) × List Request :=
  match validate_start_end (.pyDatetime start) (.pyDatetime end_) with
  | .error e => (.error e, [])
  | .ok _ =>
  match validate_inputs st none entity_type entity_id extra_fields with
  | .error e => (.error e, [])
  | .ok _ =>
  if forecast_base_times.all (fun t => (strptimeHM t).isSome) then
    let forecast_type := if entity_id == 0 then "national" else "regional"
    match get_forecast_bases st orc start end_ forecast_type with
    | (.error e, log) => (.error e, log)
    | (.ok fbstrs, log) =>
      match fbstrs.mapM (fun fb => fromiso (strReplace fb "Z" "+00:00")) with
      | none => (.error .valueError, log)
      | some fbases =>
        pageLoop st orc forecast_base_times entity_type entity_id extra_fields
          fbases [] [] log
  else
    (.error (.pvfExc "forecast_base_times must be a list of time strings in the format HH:MM."),
     [])

/-! ### Claim C1 — entity-id validation against the cached reference lists -/

/-- Claim C1, counterexample: the claim states that `entity_id = 0` is
accepted for every `entity_type` in `{"pes", "gsp"}` and every state of
the cached reference lists; but for `entity_type = "gsp"` the source
checks plain membership in `gsp_ids` with no special case for 0, so with
a cached gsp list `[1, 2]` the id 0 is rejected with "not found". -/
theorem claim1_counterexample :
    validate_inputs ⟨"u", "k", 3, [], [1, 2]⟩ none "gsp" 0 "" =
      .error (.pvfExc "The gsp_id 0 was not found.") := by
  rfl

/-- Claim C1, amended: `entity_id = 0` is unconditionally accepted only
for `entity_type = "pes"`; for `"gsp"` validation accepts exactly the ids
in the cached gsp list (0 included only when the list holds it). Every id
not in the matching list (and ≠ 0 in the pes case) is rejected with an
"identifier not found" error naming the offending id. -/
theorem claim1_amended (st : ClientState) (eid : Int) :
    (eid = 0 → validate_inputs st none "pes" eid "" = .ok ()) ∧
    (eid ∈ st.pes_ids → validate_inputs st none "pes" eid "" = .ok ()) ∧
    (eid ≠ 0 → eid ∉ st.pes_ids →
      validate_inputs st none "pes" eid "" =
        .error (.pvfExc ("The pes_id " ++ toString eid ++ " was not found."))) ∧
    (eid ∈ st.gsp_ids → validate_inputs st none "gsp" eid "" = .ok ()) ∧
    (eid ∉ st.gsp_ids →
      validate_inputs st none "gsp" eid "" =
        .error (.pvfExc ("The gsp_id " ++ toString eid ++ " was not found."))) := by
  refine ⟨fun h0 => ?_, fun hm => ?_, fun h0 hm => ?_, fun hm => ?_, fun hm => ?_⟩ <;>
    simp [validate_inputs, *]

/-- Claim C1, witness for the amended theorem at concrete inputs. -/
theorem claim1_witness :
    validate_inputs ⟨"u", "k", 3, [5], [0, 3]⟩ none "pes" 0 "" = .ok () ∧
    validate_inputs ⟨"u", "k", 3, [5], [0, 3]⟩ none "gsp" 0 "" = .ok () ∧
    validate_inputs ⟨"u", "k", 3, [5], [0, 3]⟩ none "gsp" 7 "" =
      .error (.pvfExc "The gsp_id 7 was not found.") :=
  ⟨(claim1_amended ⟨"u", "k", 3, [5], [0, 3]⟩ 0).1 rfl,
   (claim1_amended ⟨"u", "k", 3, [5], [0, 3]⟩ 0).2.2.2.1 (by decide),
   (claim1_amended ⟨"u", "k", 3, [5], [0, 3]⟩ 7).2.2.2.2 (by decide)⟩

/-! ### Claims C2 and C3 — the retry/backoff loop of `_fetch_url` -/

/-- Running the fetch loop through `n` consecutive HTTP-error attempts:
each failed attempt sleeps the current delay and doubles it. -/
theorem fetchGo_fail_steps (net : Nat → NetResult) :
    ∀ (n budget idx : Nat) (delay : Rat) (sleeps : List Rat),
      n ≤ budget → (∀ j, j < n → isHttpFail (net (idx + j)) = true) →
      fetchGo net budget idx delay sleeps =
        fetchGo net (budget - n) (idx + n) (delay * 2 ^ n)
          (sleeps ++ geom delay n) := by
  intro n
  induction n with
  | zero => intro budget idx delay sleeps _ _; simp [geom]
  | succ n ih =>
    intro budget idx delay sleeps hb hf
    obtain ⟨b, rfl⟩ : ∃ b, budget = b + 1 := ⟨budget - 1, by omega⟩
    have h0 : isHttpFail (net idx) = true := by
      simpa using hf 0 (Nat.succ_pos n)
    cases hnet : net idx with
    | connError => rw [hnet] at h0; simp [isHttpFail] at h0
    | response status body =>
      rw [hnet] at h0
      have hcond : (400 ≤ status && status < 600) = true := h0
      have step :
          fetchGo net (b + 1) idx delay sleeps =
            fetchGo net b (idx + 1) (delay * 2) (sleeps ++ [delay]) := by
        simp [fetchGo, hnet, hcond]
      rw [step,
        ih b (idx + 1) (delay * 2) (sleeps ++ [delay]) (by omega)
          (fun j hj => by
            have := hf (j + 1) (by omega)
            simpa [Nat.add_assoc, Nat.add_comm 1 j] using this)]
      have e1 : idx + 1 + n = idx + (n + 1) := by omega
      have e2 : delay * 2 * 2 ^ n = delay * 2 ^ (n + 1) := by ring
      have e3 : sleeps ++ [delay] ++ geom (delay * 2) n =
          sleeps ++ geom delay (n + 1) := by
        simp [geom]
      rw [e1, e2, e3, Nat.succ_sub_succ]

/-- Claim C2, counterexample: a transport-level (network) error is not
retried at all — `requests.get`'s `ConnectionError` is not an
`HTTPError`, so the `except` clause does not catch it and it propagates
after a single attempt, with no backoff sleep and no
`CommunicationError`. -/
theorem claim2_counterexample :
    fetch_url 3 (fun _ => .connError) =
      ⟨.netError, [], 1⟩ ∧ FetchResult.netError ≠ FetchResult.commError := by
  exact ⟨rfl, by decide⟩

/-- Claim C2, amended: the retry budget applies to HTTP error statuses
(4xx/5xx raised by `raise_for_status`), not to transport-level errors.
If every attempt fails that way, exactly `retries + 1` requests are
issued, the loop sleeps the geometric schedule 0.5, 1, 2, … (one sleep
after every failed attempt, the last included), and the call ends with
`CommunicationError`. If the first `k ≤ retries` attempts fail that way
and attempt `k` returns a 200 body free of the authentication markers,
the call returns that payload after the `k` backoff sleeps 0.5·2^i. The
constructor's default budget is 3. -/
theorem claim2_amended (r k : Nat) (net : Nat → NetResult) (body : String) :
    defaultRetries = 3 ∧
    ((∀ j, j < r + 1 → isHttpFail (net j) = true) →
      fetch_url r net = ⟨.commError, geom ((1 : Rat) / 2) (r + 1), r + 1⟩) ∧
    (k ≤ r → (∀ j, j < k → isHttpFail (net j) = true) →
      net k = .response 200 body →
      strContains body "Your api key is not valid" = false →
      strContains body "Your account does not give access" = false →
      fetch_url r net = ⟨.okBody body, geom ((1 : Rat) / 2) k, k + 1⟩) := by
  refine ⟨rfl, fun hf => ?_, fun hk hf hnet hm1 hm2 => ?_⟩
  · rw [fetch_url,
      fetchGo_fail_steps net (r + 1) (r + 1) 0 ((1 : Rat) / 2) []
        le_rfl (fun j hj => by simpa using hf j hj)]
    simp [fetchGo]
  · rw [fetch_url,
      fetchGo_fail_steps net k (r + 1) 0 ((1 : Rat) / 2) []
        (by omega) (fun j hj => by simpa using hf j hj)]
    obtain ⟨b, hb⟩ : ∃ b, r + 1 - k = b + 1 := ⟨r - k, by omega⟩
    rw [hb]
    simp [fetchGo, hnet, hm1, hm2]

/-- Claim C2, witness: with a 503 on every attempt and budget 1 the call
makes 2 attempts, sleeps 0.5 then 1, and fails with the communication
error; with 503 twice then 200 and budget 3 it returns the payload after
the two sleeps. -/
theorem claim2_witness :
    fetch_url 1 (fun _ => .response 503 "x") =
      ⟨.commError, geom ((1 : Rat) / 2) 2, 2⟩ ∧
    fetch_url 3 (fun j => if j < 2 then .response 503 "x" else .response 200 "payload") =
      ⟨.okBody "payload", geom ((1 : Rat) / 2) 2, 3⟩ :=
  ⟨(claim2_amended 1 0 (fun _ => .response 503 "x") "").2.1 (by decide),
   (claim2_amended 3 2
      (fun j => if j < 2 then .response 503 "x" else .response 200 "payload")
      "payload").2.2 (by decide) (by decide) (by decide) (by decide) (by decide)⟩

/-- Claim C3: a 200 response whose body contains an authentication-failure
marker fails on the spot — one request, no backoff sleep, no retry — and
the two markers map to the two distinct authentication errors: "Your api
key is not valid" (checked first) to the invalid-credentials exception,
"Your account does not give access" to the unauthorized-for-resource
exception. -/
theorem claim3_auth_no_retry (r : Nat) (net : Nat → NetResult) (body : String) :
    (net 0 = .response 200 body →
      strContains body "Your api key is not valid" = true →
      fetch_url r net = ⟨.authInvalid, [], 1⟩) ∧
    (net 0 = .response 200 body →
      strContains body "Your api key is not valid" = false →
      strContains body "Your account does not give access" = true →
      fetch_url r net = ⟨.authNoAccess, [], 1⟩) := by
  constructor
  · intro hnet hm
    rw [fetch_url]
    simp [fetchGo, hnet, hm]
  · intro hnet hm1 hm2
    rw [fetch_url]
    simp [fetchGo, hnet, hm1, hm2]

/-- Claim C3, witness at concrete bodies holding each marker. -/
theorem claim3_witness :
    fetch_url 3 (fun _ => .response 200 "abc Your api key is not valid xyz") =
      ⟨.authInvalid, [], 1⟩ ∧
    fetch_url 3 (fun _ => .response 200 "Your account does not give access to that data") =
      ⟨.authNoAccess, [], 1⟩ :=
  ⟨(claim3_auth_no_retry 3 _ "abc Your api key is not valid xyz").1 rfl (by decide),
   (claim3_auth_no_retry 3 _ "Your account does not give access to that data").2
      rfl (by decide) (by decide)⟩

/-! ### Claims C4, C5, C6 — window and allow-list validation -/

/-- `_validate_start_end` on two datetimes, in closed form: the timezone
check (either bound naive) fires first, then the `end < start` range
check. -/
theorem validate_start_end_dt (s e : Datetime) :
    validate_start_end (.pyDatetime s) (.pyDatetime e) =
      if s.tzinfo.isNone || e.tzinfo.isNone then
        .error (.pvfExc "start and end must be timezone-aware Python datetime objects.")
      else if dtLt e s then
        .error (.pvfExc "end must be later than start.")
      else .ok () := by
  cases hs : s.tzinfo <;> cases he : e.tzinfo <;>
    simp [validate_start_end, tzinfoAttr, Bind.bind, Except.bind, hs, he,
      isDatetimeVal, Pure.pure, Except.pure]

/-- Claim C4, counterexample: the entry `"7:00"` (missing leading zero)
is accepted by `strptime("%H:%M")` — whose `%H` matches a one- or
two-digit hour — so `get_forecasts` does not fail validation: it proceeds
to issue the discovery request (and, the discovery list being empty here,
returns an empty result). -/
theorem claim4_counterexample :
    strptimeHM "7:00" = some (7, 0) ∧
    get_forecasts ⟨"u", "k", 3, [], [0]⟩ ⟨[], fun _ => ([], [])⟩
        ⟨2021, 2, 20, 0, 0, 0, some 0⟩ ⟨2021, 2, 20, 0, 0, 0, some 0⟩
        ["7:00"] "gsp" 0 "" =
      (.ok ([], []),
       [.discovery 0 [("start", "2021-02-20T00:00:00Z"),
                      ("end", "2021-02-20T00:00:00Z")]]) :=
  ⟨rfl, rfl⟩

/-- Claim C4, amended: an allow-list entry fails fast — with the
"forecast_base_times must be a list of time strings in the format HH:MM."
error, before any network request — exactly when `strptime("%H:%M")`
cannot parse it; but that format tolerates a missing leading zero, so
`"7:00"` is accepted (and then silently matches no discovered base, whose
clock times are rendered zero-padded). -/
theorem claim4_amended (st : ClientState) (orc : Oracle) (start end_ : Datetime)
    (fbts : List String) (etype : String) (eid : Int) (extra : String)
    (h1 : start.tzinfo ≠ none) (h2 : end_.tzinfo ≠ none)
    (h3 : ¬ dtKey end_ < dtKey start)
    (h4 : validate_inputs st none etype eid extra = .ok ())
    (h5 : ∃ t ∈ fbts, strptimeHM t = none) :
    get_forecasts st orc start end_ fbts etype eid extra =
      (.error (.pvfExc "forecast_base_times must be a list of time strings in the format HH:MM."),
       []) := by
  obtain ⟨t, ht, hnone⟩ := h5
  have hall : fbts.all (fun t => (strptimeHM t).isSome) = false := by
    cases hA : fbts.all (fun t => (strptimeHM t).isSome) with
    | false => rfl
    | true =>
      have := List.all_eq_true.mp hA t ht
      simp [hnone] at this
  cases hs : start.tzinfo with
  | none => exact absurd hs h1
  | some soff =>
    cases he : end_.tzinfo with
    | none => exact absurd he h2
    | some eoff =>
      have hlt : dtLt end_ start = false := by
        simp [dtLt, h3]
      simp [get_forecasts, validate_start_end_dt, hs, he, hlt, h4, hall]

/-- Claim C4, witness for the amended theorem: an unparsable entry
`"7:xx"` fails fast with no request issued. -/
theorem claim4_witness :
    get_forecasts ⟨"u", "k", 3, [], [0]⟩ ⟨[], fun _ => ([], [])⟩
        ⟨2021, 2, 20, 0, 0, 0, some 0⟩ ⟨2021, 2, 23, 23, 0, 0, some 0⟩
        ["07:00", "7:xx"] "gsp" 0 "" =
      (.error (.pvfExc "forecast_base_times must be a list of time strings in the format HH:MM."),
       []) :=
  claim4_amended ⟨"u", "k", 3, [], [0]⟩ ⟨[], fun _ => ([], [])⟩
    ⟨2021, 2, 20, 0, 0, 0, some 0⟩ ⟨2021, 2, 23, 23, 0, 0, some 0⟩
    ["07:00", "7:xx"] "gsp" 0 "" (by decide) (by decide) (by decide) rfl
    ⟨"7:xx", by decide, rfl⟩

/-- Claim C5: every public entry point that accepts a timestamp rejects a
naive (timezone-less) datetime with the matching timezone error before
any network request is issued — `get_forecast` for its forecast base,
`get_forecast_bases` and `get_forecasts` for either window bound. -/
theorem claim5_naive_rejected (st : ClientState) (orc : Oracle)
    (dt s e : Datetime) (fbts : List String) (etype ftype : String)
    (eid : Int) (extra : String) :
    (dt.tzinfo = none →
      get_forecast st orc (some dt) etype eid extra =
        (.error (.pvfExc "The forecast_base_gmt must be a timezone-aware Python datetime object."),
         [])) ∧
    (s.tzinfo = none ∨ e.tzinfo = none →
      get_forecast_bases st orc s e ftype =
        (.error (.pvfExc "start and end must be timezone-aware Python datetime objects."),
         [])) ∧
    (s.tzinfo = none ∨ e.tzinfo = none →
      get_forecasts st orc s e fbts etype eid extra =
        (.error (.pvfExc "start and end must be timezone-aware Python datetime objects."),
         [])) := by
  refine ⟨fun h => ?_, fun h => ?_, fun h => ?_⟩
  · simp [get_forecast, validate_inputs, h]
  · have : (s.tzinfo.isNone || e.tzinfo.isNone) = true := by
      rcases h with h | h <;> simp [h]
    simp [get_forecast_bases, validate_start_end_dt, this]
  · have : (s.tzinfo.isNone || e.tzinfo.isNone) = true := by
      rcases h with h | h <;> simp [h]
    simp [get_forecasts, validate_start_end_dt, this]

/-- Claim C5, witness at a concrete naive timestamp. -/
theorem claim5_witness :
    get_forecast ⟨"u", "k", 3, [], [0]⟩ ⟨[], fun _ => ([], [])⟩
        (some ⟨2021, 2, 20, 0, 0, 0, none⟩) "gsp" 0 "" =
      (.error (.pvfExc "The forecast_base_gmt must be a timezone-aware Python datetime object."),
       []) ∧
    get_forecasts ⟨"u", "k", 3, [], [0]⟩ ⟨[], fun _ => ([], [])⟩
        ⟨2021, 2, 20, 0, 0, 0, none⟩ ⟨2021, 2, 23, 23, 0, 0, some 0⟩
        [] "gsp" 0 "" =
      (.error (.pvfExc "start and end must be timezone-aware Python datetime objects."),
       []) :=
  ⟨(claim5_naive_rejected ⟨"u", "k", 3, [], [0]⟩ ⟨[], fun _ => ([], [])⟩
      ⟨2021, 2, 20, 0, 0, 0, none⟩ ⟨2021, 2, 20, 0, 0, 0, none⟩
      ⟨2021, 2, 23, 23, 0, 0, some 0⟩ [] "gsp" "national" 0 "").1 rfl,
   (claim5_naive_rejected ⟨"u", "k", 3, [], [0]⟩ ⟨[], fun _ => ([], [])⟩
      ⟨2021, 2, 20, 0, 0, 0, none⟩ ⟨2021, 2, 20, 0, 0, 0, none⟩
      ⟨2021, 2, 23, 23, 0, 0, some 0⟩ [] "gsp" "national" 0 "").2.2
      (Or.inl rfl)⟩

/-- Claim C6: for timezone-aware bounds the range validator raises the
range error exactly when `end < start` in Python's aware-datetime order
(so the boundary `end = start` is accepted and yields success), and
whenever either bound is naive it raises the timezone error. -/
theorem claim6_range (s e : Datetime) :
    (s.tzinfo ≠ none → e.tzinfo ≠ none →
      (validate_start_end (.pyDatetime s) (.pyDatetime e) =
          .error (.pvfExc "end must be later than start.") ↔
        dtKey e < dtKey s) ∧
      (¬ dtKey e < dtKey s →
        validate_start_end (.pyDatetime s) (.pyDatetime e) = .ok ())) ∧
    ((s.tzinfo = none ∨ e.tzinfo = none) →
      validate_start_end (.pyDatetime s) (.pyDatetime e) =
        .error (.pvfExc "start and end must be timezone-aware Python datetime objects.")) := by
  constructor
  · intro hs he
    have hs' : s.tzinfo.isNone = false := by
      cases h : s.tzinfo with
      | none => exact absurd h hs
      | some _ => rfl
    have he' : e.tzinfo.isNone = false := by
      cases h : e.tzinfo with
      | none => exact absurd h he
      | some _ => rfl
    constructor
    · rw [validate_start_end_dt]
      by_cases hlt : dtKey e < dtKey s
      · simp [hs', he', dtLt, hlt]
      · simp [hs', he', dtLt, hlt]
    · intro hlt
      rw [validate_start_end_dt]
      simp [hs', he', dtLt, hlt]
  · intro h
    have : (s.tzinfo.isNone || e.tzinfo.isNone) = true := by
      rcases h with h | h <;> simp [h]
    rw [validate_start_end_dt]
    simp [this]

/-- Claim C6, witness: equal aware bounds are accepted, reversed aware
bounds raise the range error, a naive bound raises the timezone error. -/
theorem claim6_witness :
    validate_start_end (.pyDatetime ⟨2021, 2, 20, 0, 0, 0, some 0⟩)
        (.pyDatetime ⟨2021, 2, 20, 0, 0, 0, some 0⟩) = .ok () ∧
    validate_start_end (.pyDatetime ⟨2021, 2, 20, 0, 0, 1, some 0⟩)
        (.pyDatetime ⟨2021, 2, 20, 0, 0, 0, some 0⟩) =
      .error (.pvfExc "end must be later than start.") ∧
    validate_start_end (.pyDatetime ⟨2021, 2, 20, 0, 0, 0, none⟩)
        (.pyDatetime ⟨2021, 2, 20, 0, 0, 0, some 0⟩) =
      .error (.pvfExc "start and end must be timezone-aware Python datetime objects.") :=
  ⟨((claim6_range ⟨2021, 2, 20, 0, 0, 0, some 0⟩ ⟨2021, 2, 20, 0, 0, 0, some 0⟩).1
      (by decide) (by decide)).2 (by decide),
   ((claim6_range ⟨2021, 2, 20, 0, 0, 1, some 0⟩ ⟨2021, 2, 20, 0, 0, 0, some 0⟩).1
      (by decide) (by decide)).1.mpr (by decide),
   (claim6_range ⟨2021, 2, 20, 0, 0, 0, none⟩ ⟨2021, 2, 20, 0, 0, 0, some 0⟩).2
      (Or.inl rfl)⟩

/-! ### Claim C7 — the pagination loop of `get_forecasts` -/

/-- A selector that passes `_validate_inputs` with no forecast base also
passes it with any timezone-aware forecast base: the remaining checks are
the same code path. -/
theorem validate_inputs_fb (st : ClientState) (etype : String) (eid : Int)
    (extra : String) (d : Datetime)
    (hok : validate_inputs st none etype eid extra = .ok ())
    (hd : d.tzinfo ≠ none) :
    validate_inputs st (some d) etype eid extra = .ok () := by
  cases htz : d.tzinfo with
  | none => exact absurd htz hd
  | some off =>
    simp only [validate_inputs, htz, Option.isNone_some] at hok ⊢
    simpa using hok

/-- The filter the loop applies to a discovered base: an empty allow-list
passes everything, otherwise the base's zero-padded clock time must be
listed. -/
def baseSelected (fbts : List String) (d : Datetime) : Bool :=
  fbts.isEmpty || fbts.contains (fmtHM d)

/-- Closed form of the `for fbase in fbases` loop: starting from
accumulators `data`, `meta`, `log`, it returns the accumulated rows plus
the concatenated rows of one fetch per selected base in order, the column
names of the last non-empty fetch (the incoming `meta` when none is), and
the request log extended by one fetch request per selected base. -/
theorem pageLoop_spec (st : ClientState) (orc : Oracle) (fbts : List String)
    (etype : String) (eid : Int) (extra : String)
    (hval : ∀ d : Datetime, d.tzinfo ≠ none →
      validate_inputs st (some d) etype eid extra = .ok ()) :
    ∀ (ds : List Datetime), (∀ d ∈ ds, d.tzinfo ≠ none) →
      ∀ (data : List (List Value)) (meta : List String) (log : List Request),
      pageLoop st orc fbts etype eid extra ds data meta log =
        (.ok (data ++ ((ds.filter (baseSelected fbts)).map
                (fun d => (orc.fetchData (some d)).1)).join,
              (ds.filter (baseSelected fbts)).foldl
                (fun acc d => if (orc.fetchData (some d)).1.isEmpty then acc
                              else (orc.fetchData (some d)).2) meta),
         log ++ (ds.filter (baseSelected fbts)).map
                (fun d => .forecastFetch etype eid
                    (compile_params st (some d) extra))) := by
  intro ds
  induction ds with
  | nil => intro _ data meta log; simp [pageLoop]
  | cons d rest ih =>
    intro haware data meta log
    have hd : d.tzinfo ≠ none := haware d (List.mem_cons_self d rest)
    have hrest : ∀ x ∈ rest, x.tzinfo ≠ none :=
      fun x hx => haware x (List.mem_cons_of_mem d hx)
    have hfetch :
        get_forecast st orc (some d) etype eid extra =
          (.ok (orc.fetchData (some d)),
           [.forecastFetch etype eid (compile_params st (some d) extra)]) := by
      simp [get_forecast, hval d hd]
    by_cases hsel : baseSelected fbts d = true
    · rw [pageLoop]
      rw [show (fbts.isEmpty || fbts.contains (fmtHM d)) = true from hsel]
      simp only [if_true, hfetch]
      by_cases hemp : (orc.fetchData (some d)).1.isEmpty = true
      · have hnil : (orc.fetchData (some d)).1 = [] :=
          List.isEmpty_iff.mp hemp
        simp only [hemp, if_true]
        rw [ih hrest data meta
          (log ++ [Request.forecastFetch etype eid (compile_params st (some d) extra)])]
        simp [List.filter_cons, hsel, hnil, hemp]
      · have hne : (orc.fetchData (some d)).1 ≠ [] := by
          simpa [List.isEmpty_iff] using hemp
        simp only [hemp, if_false]
        rw [ih hrest (data ++ (orc.fetchData (some d)).1)
          (orc.fetchData (some d)).2
          (log ++ [Request.forecastFetch etype eid (compile_params st (some d) extra)])]
        simp [List.filter_cons, hsel, hemp, hne, List.append_assoc]
    · rw [pageLoop]
      rw [show (fbts.isEmpty || fbts.contains (fmtHM d)) = false from
        Bool.eq_false_iff.mpr hsel]
      simp only [Bool.false_eq_true, if_false]
      rw [ih hrest data meta log]
      simp [List.filter_cons, hsel]

/-- Claim C7: for a valid window and selector, `get_forecasts` returns
exactly the concatenation, in discovery order, of the rows of one
single-forecast fetch per discovered base whose clock time passes the
allow-list (every base when the list is empty), with the column names of
the last non-empty fetch; one discovery request plus one fetch request
per selected base is issued. An empty discovery list yields the empty
result, not an error. -/
theorem claim7_pagination (st : ClientState) (orc : Oracle)
    (start end_ : Datetime) (fbts : List String) (etype : String)
    (eid : Int) (extra : String) (ds : List Datetime)
    (h1 : start.tzinfo ≠ none) (h2 : end_.tzinfo ≠ none)
    (h3 : ¬ dtKey end_ < dtKey start)
    (h4 : validate_inputs st none etype eid extra = .ok ())
    (h5 : fbts.all (fun t => (strptimeHM t).isSome) = true)
    (h6 : orc.bases.mapM (fun fb => fromiso (strReplace fb "Z" "+00:00")) =
      some ds)
    (h7 : ∀ d ∈ ds, d.tzinfo ≠ none) :
    get_forecasts st orc start end_ fbts etype eid extra =
      (.ok (((ds.filter (baseSelected fbts)).map
              (fun d => (orc.fetchData (some d)).1)).join,
            (ds.filter (baseSelected fbts)).foldl
              (fun acc d => if (orc.fetchData (some d)).1.isEmpty then acc
                            else (orc.fetchData (some d)).2) []),
       .discovery (if eid == 0 then 0 else 1)
           [("start", iso8601_ss start), ("end", iso8601_ss end_)]
         :: (ds.filter (baseSelected fbts)).map
              (fun d => .forecastFetch etype eid
                  (compile_params st (some d) extra))) := by
  cases hs : start.tzinfo with
  | none => exact absurd hs h1
  | some soff =>
    cases he : end_.tzinfo with
    | none => exact absurd he h2
    | some eoff =>
      have hlt : dtLt end_ start = false := by
        simp [dtLt, h3]
      have hbases :
          get_forecast_bases st orc start end_
              (if eid == 0 then "national" else "regional") =
            (.ok orc.bases,
             [.discovery (if eid == 0 then 0 else 1)
                [("start", iso8601_ss start), ("end", iso8601_ss end_)]]) := by
        by_cases h0 : eid == 0 <;>
          simp [get_forecast_bases, validate_start_end_dt, hs, he, hlt, h0,
            lowerStr]
      rw [get_forecasts, validate_start_end_dt]
      simp only [hs, he, Option.isNone_some, Bool.or_self, Bool.false_eq_true,
        if_false, hlt, h4, h5, if_true]
      rw [hbases]
      simp only [h6]
      rw [pageLoop_spec st orc fbts etype eid extra
        (fun d hd => validate_inputs_fb st etype eid extra d h4 hd) ds h7 [] []
        [.discovery (if eid == 0 then 0 else 1)
          [("start", iso8601_ss start), ("end", iso8601_ss end_)]]]
      simp

/-- Claim C7, witness: one discovered base, empty allow-list — the result
is that fetch's rows and columns; and with an empty discovery list the
result is empty, not an error. -/
theorem claim7_witness :
    get_forecasts ⟨"u", "k", 3, [], [0]⟩
        ⟨["2021-02-23T07:00:00Z"],
         fun _ => ([[Value.vInt 0, Value.vFloat 2]], ["gsp_id", "generation_mw"])⟩
        ⟨2021, 2, 23, 0, 0, 0, some 0⟩ ⟨2021, 2, 23, 23, 0, 0, some 0⟩
        [] "gsp" 0 "" =
      (.ok ([[Value.vInt 0, Value.vFloat 2]], ["gsp_id", "generation_mw"]),
       [.discovery 0 [("start", "2021-02-23T00:00:00Z"),
                      ("end", "2021-02-23T23:00:00Z")],
        .forecastFetch "gsp" 0
          [("forecast_base_GMT", "2021-02-23T07:00:00Z"),
           ("user_id", "u"), ("key", "k"), ("data_format", "json")]]) ∧
    get_forecasts ⟨"u", "k", 3, [], [0]⟩ ⟨[], fun _ => ([], [])⟩
        ⟨2021, 2, 23, 0, 0, 0, some 0⟩ ⟨2021, 2, 23, 23, 0, 0, some 0⟩
        [] "gsp" 0 "" =
      (.ok ([], []),
       [.discovery 0 [("start", "2021-02-23T00:00:00Z"),
                      ("end", "2021-02-23T23:00:00Z")]]) :=
  ⟨(claim7_pagination ⟨"u", "k", 3, [], [0]⟩
      ⟨["2021-02-23T07:00:00Z"],
       fun _ => ([[Value.vInt 0, Value.vFloat 2]], ["gsp_id", "generation_mw"])⟩
      ⟨2021, 2, 23, 0, 0, 0, some 0⟩ ⟨2021, 2, 23, 23, 0, 0, some 0⟩
      [] "gsp" 0 "" [⟨2021, 2, 23, 7, 0, 0, some 0⟩]
      (by decide) (by decide) (by decide) rfl rfl rfl
      (by decide)).trans rfl,
   (claim7_pagination ⟨"u", "k", 3, [], [0]⟩ ⟨[], fun _ => ([], [])⟩
      ⟨2021, 2, 23, 0, 0, 0, some 0⟩ ⟨2021, 2, 23, 23, 0, 0, some 0⟩
      [] "gsp" 0 "" []
      (by decide) (by decide) (by decide) rfl rfl rfl
      (by decide)).trans rfl⟩

/-! ### Claim C8 — parameter compilation -/

/-- Claim C8: when the forecast base is unset the `forecast_base_GMT`
parameter is entirely absent from the compiled parameters; when set, its
value is the ISO-8601 rendering with the "+00:00" offset replaced by the
"Z" suffix; and a non-empty `extra_fields` string is passed through
verbatim. -/
theorem claim8_params (st : ClientState) (dt : Datetime) (extra : String) :
    lookupParam (compile_params st none extra) "forecast_base_GMT" = none ∧
    lookupParam (compile_params st (some dt) extra) "forecast_base_GMT" =
      some (strReplace (isoformat dt) "+00:00" "Z") ∧
    (extra ≠ "" →
      lookupParam (compile_params st (some dt) extra) "extra_fields" =
        some extra ∧
      lookupParam (compile_params st none extra) "extra_fields" =
        some extra) := by
  refine ⟨?_, ?_, fun hne => ⟨?_, ?_⟩⟩
  · by_cases h : extra == "" <;>
      simp [compile_params, lookupParam, h, iso8601_ss]
  · by_cases h : extra == "" <;>
      simp [compile_params, lookupParam, h, iso8601_ss]
  · have h : (extra != "") = true := by simpa using hne
    simp [compile_params, lookupParam, h]
  · have h : (extra != "") = true := by simpa using hne
    simp [compile_params, lookupParam, h]

/-- Claim C8, witness: the UTC offset is rendered as a "Z" suffix, the
extra-fields string arrives verbatim, and no forecast-base key exists
when the base is unset. -/
theorem claim8_witness :
    lookupParam (compile_params ⟨"u", "k", 3, [], [0]⟩
        (some ⟨2021, 2, 23, 7, 0, 0, some 0⟩) "installedcapacity_mwp")
        "forecast_base_GMT" = some "2021-02-23T07:00:00Z" ∧
    lookupParam (compile_params ⟨"u", "k", 3, [], [0]⟩
        (some ⟨2021, 2, 23, 7, 0, 0, some 0⟩) "installedcapacity_mwp")
        "extra_fields" = some "installedcapacity_mwp" ∧
    lookupParam (compile_params ⟨"u", "k", 3, [], [0]⟩ none "installedcapacity_mwp")
        "forecast_base_GMT" = none :=
  ⟨((claim8_params ⟨"u", "k", 3, [], [0]⟩ ⟨2021, 2, 23, 7, 0, 0, some 0⟩
      "installedcapacity_mwp").2.1).trans rfl,
   ((claim8_params ⟨"u", "k", 3, [], [0]⟩ ⟨2021, 2, 23, 7, 0, 0, some 0⟩
      "installedcapacity_mwp").2.2 (by decide)).1,
   (claim8_params ⟨"u", "k", 3, [], [0]⟩ ⟨2021, 2, 23, 7, 0, 0, some 0⟩
      "installedcapacity_mwp").1⟩

/-! ### Claim C9 — the DataFrame conversion round trip -/

/-- The per-column assignment leaves a row unchanged when the column name
is absent from the labels. -/
theorem applyColRow_skip (name : String) :
    ∀ (cols : List String) (r : List Value), r.length = cols.length →
      cols.contains name = false → applyColRow name cols r = r := by
  intro cols
  induction cols with
  | nil =>
    intro r hlen _
    rw [List.length_nil, List.length_eq_zero] at hlen
    subst hlen
    rfl
  | cons c cs ih =>
    intro r hlen hm
    cases r with
    | nil => rfl
    | cons v vs =>
      rw [List.contains_cons, Bool.or_eq_false_iff] at hm
      have hc : (c == name) = false := by
        cases h : c == name with
        | false => rfl
        | true =>
          have hcn : c = name := eq_of_beq h
          subst hcn
          simpa using hm.1
      have htl := ih vs (by simpa using hlen) hm.2
      simp only [applyColRow] at htl ⊢
      simp only [List.zip_cons_cons, List.map_cons, hc, Bool.false_eq_true,
        if_false]
      rw [htl]

/-- Applying the `forecast_base_gmt` pass and then the `datetime_gmt`
pass to a row equals one pass that parses the cells under either label. -/
theorem row_two_pass :
    ∀ (cols : List String) (r : List Value), r.length = cols.length →
      applyColRow "datetime_gmt" cols (applyColRow "forecast_base_gmt" cols r) =
        (r.zip cols).map (fun p =>
          if p.2 == "forecast_base_gmt" || p.2 == "datetime_gmt" then
            pdToDatetime p.1
          else p.1) := by
  intro cols
  induction cols with
  | nil =>
    intro r hlen
    rw [List.length_nil, List.length_eq_zero] at hlen
    subst hlen
    rfl
  | cons c cs ih =>
    intro r hlen
    cases r with
    | nil => rfl
    | cons v vs =>
      have htl := ih vs (by simpa using hlen)
      simp only [applyColRow] at htl ⊢
      simp only [List.zip_cons_cons, List.map_cons]
      cases h1 : c == "forecast_base_gmt" with
      | true =>
        have hcn : c = "forecast_base_gmt" := eq_of_beq h1
        subst hcn
        simp only [List.zip_cons_cons, List.map_cons]
        rw [htl]
        simp
      | false =>
        cases h2 : c == "datetime_gmt" with
        | true =>
          have hcn : c = "datetime_gmt" := eq_of_beq h2
          subst hcn
          simp only [List.zip_cons_cons, List.map_cons]
          rw [htl]
          simp
        | false =>
          simp only [List.zip_cons_cons, List.map_cons, h1, h2,
            Bool.false_eq_true, if_false, Bool.or_self]
          rw [htl]

/-- Claim C9: converting a row set to the labelled table and re-reading
its raw rows preserves the row count, lower-cases every column name, and
maps each cell to its original value modulo the `None → nan` replacement
— with the cells under the (lower-cased) labels `forecast_base_gmt` and
`datetime_gmt` additionally parsed into timestamps. A `None` cell becomes
the float `nan` sentinel, never a string placeholder. -/
theorem claim9_roundtrip (data : List (List Value)) (columns : List String)
    (hw : ∀ r ∈ data, r.length = columns.length) :
    (convert_tuple_to_df data columns).columns = columns.map lowerStr ∧
    (convert_tuple_to_df data columns).rows.length = data.length ∧
    (convert_tuple_to_df data columns).rows =
      data.map (fun r => (r.zip (columns.map lowerStr)).map (fun p =>
        if p.2 == "forecast_base_gmt" || p.2 == "datetime_gmt" then
          pdToDatetime (noneToNan p.1)
        else noneToNan p.1)) ∧
    noneToNan .vNone = .vNaN := by
  have hcols : (convert_tuple_to_df data columns).columns =
      columns.map lowerStr := by
    cases hb1 : (List.map lowerStr columns).contains "forecast_base_gmt" with
    | true =>
      cases hb2 : (List.map lowerStr columns).contains "datetime_gmt" with
      | true =>
        simp only [convert_tuple_to_df, applyCol, hb1, hb2, if_true]
      | false =>
        simp only [convert_tuple_to_df, applyCol, hb1, hb2,
          Bool.false_eq_true, if_true, if_false]
    | false =>
      cases hb2 : (List.map lowerStr columns).contains "datetime_gmt" with
      | true =>
        simp only [convert_tuple_to_df, applyCol, hb1, hb2,
          Bool.false_eq_true, if_true, if_false]
      | false =>
        simp only [convert_tuple_to_df, applyCol, hb1, hb2,
          Bool.false_eq_true, if_false]
  have hrows2 : (convert_tuple_to_df data columns).rows =
      data.map (fun r =>
        applyColRow "datetime_gmt" (List.map lowerStr columns)
          (applyColRow "forecast_base_gmt" (List.map lowerStr columns)
            (r.map noneToNan))) := by
    cases hb1 : (List.map lowerStr columns).contains "forecast_base_gmt" with
    | true =>
      cases hb2 : (List.map lowerStr columns).contains "datetime_gmt" with
      | true =>
        simp only [convert_tuple_to_df, applyCol, hb1, hb2, if_true,
          List.map_map]
        rfl
      | false =>
        simp only [convert_tuple_to_df, applyCol, hb1, hb2,
          Bool.false_eq_true, if_true, if_false, List.map_map]
        refine List.map_congr_left (fun r hr => ?_)
        rw [applyColRow_skip "datetime_gmt" (List.map lowerStr columns)
          (applyColRow "forecast_base_gmt" (List.map lowerStr columns)
            (r.map noneToNan))
          (by simp [applyColRow, hw r hr]) hb2]
        rfl
    | false =>
      cases hb2 : (List.map lowerStr columns).contains "datetime_gmt" with
      | true =>
        simp only [convert_tuple_to_df, applyCol, hb1, hb2,
          Bool.false_eq_true, if_true, if_false, List.map_map]
        refine List.map_congr_left (fun r hr => ?_)
        rw [applyColRow_skip "forecast_base_gmt" (List.map lowerStr columns)
          (r.map noneToNan) (by simp [hw r hr]) hb1]
        rfl
      | false =>
        simp only [convert_tuple_to_df, applyCol, hb1, hb2,
          Bool.false_eq_true, if_false]
        refine List.map_congr_left (fun r hr => ?_)
        rw [applyColRow_skip "forecast_base_gmt" (List.map lowerStr columns)
          (r.map noneToNan) (by simp [hw r hr]) hb1,
          applyColRow_skip "datetime_gmt" (List.map lowerStr columns)
          (r.map noneToNan) (by simp [hw r hr]) hb2]
  have hrows : (convert_tuple_to_df data columns).rows =
      data.map (fun r => (r.zip (columns.map lowerStr)).map (fun p =>
        if p.2 == "forecast_base_gmt" || p.2 == "datetime_gmt" then
          pdToDatetime (noneToNan p.1)
        else noneToNan p.1)) := by
    rw [hrows2]
    refine List.map_congr_left (fun r hr => ?_)
    rw [row_two_pass (List.map lowerStr columns) (r.map noneToNan)
      (by simp [hw r hr])]
    rw [List.zip_map_left, List.map_map]
    rfl
  exact ⟨hcols, by rw [hrows]; simp, hrows, rfl⟩

/-- Claim C9, witness: a concrete row with a `None` cell and an ISO
timestamp string under `datetime_GMT`. -/
theorem claim9_witness :
    (convert_tuple_to_df
        [[Value.vInt 1, Value.vNone, Value.vStr "2021-02-23T07:00:00Z"]]
        ["GSP_ID", "generation_MW", "datetime_GMT"]).rows =
      [[Value.vInt 1, Value.vNaN,
        Value.vTimestamp ⟨2021, 2, 23, 7, 0, 0, some 0⟩]] :=
  ((claim9_roundtrip
      [[Value.vInt 1, Value.vNone, Value.vStr "2021-02-23T07:00:00Z"]]
      ["GSP_ID", "generation_MW", "datetime_GMT"]
      (by decide)).2.2.1).trans rfl

/-! ### Claim C10 — non-datetime inputs to the range validator -/

/-- Claim C10, counterexample: the claim asserts an uncontrolled
`AttributeError` whenever start or end is not a datetime; but with a
naive-datetime start and a string end, `start.tzinfo is None` is `True`,
Python's `or` short-circuits before `end.tzinfo` is dereferenced, and the
library's own `PVForecastException` is raised instead. -/
theorem claim10_counterexample :
    validate_start_end (.pyDatetime ⟨2021, 1, 1, 0, 0, 0, none⟩)
        (.pyStr "2021-01-01") =
      .error (.pvfExc "start and end must be timezone-aware Python datetime objects.") ∧
    PyError.pvfExc "start and end must be timezone-aware Python datetime objects." ≠
      PyError.attributeError :=
  ⟨rfl, by decide⟩

/-- Claim C10, amended: the range validator raises the uncontrolled
`AttributeError` — not the library's validation error — when `start` is a
value without a `tzinfo` attribute (a string, a plain date, an int …),
and likewise when `start` is a timezone-aware datetime and `end` lacks
the attribute (the type-check result is only consulted after both
dereferences). But when `start` is a naive datetime the `or`
short-circuits and the library's own validation error is raised,
whatever `end` is. -/
theorem claim10_amended (s e_ : PyVal) :
    (hasTzinfoAttr s = false →
      validate_start_end s e_ = .error .attributeError) ∧
    (∀ dt : Datetime, s = .pyDatetime dt → dt.tzinfo ≠ none →
      hasTzinfoAttr e_ = false →
      validate_start_end s e_ = .error .attributeError) ∧
    (∀ dt : Datetime, s = .pyDatetime dt → dt.tzinfo = none →
      validate_start_end s e_ =
        .error (.pvfExc "start and end must be timezone-aware Python datetime objects.")) := by
  refine ⟨fun h => ?_, fun dt hs hdt he => ?_, fun dt hs hdt => ?_⟩
  · cases s with
    | pyDatetime d => simp [hasTzinfoAttr] at h
    | pyTime a b c => simp [hasTzinfoAttr] at h
    | pyDate a b c => rfl
    | pyStr a => rfl
    | pyInt a => rfl
  · subst hs
    cases htz : dt.tzinfo with
    | none => exact absurd htz hdt
    | some off =>
      cases e_ with
      | pyDatetime d => simp [hasTzinfoAttr] at he
      | pyTime a b c => simp [hasTzinfoAttr] at he
      | pyDate a b c =>
        simp [validate_start_end, tzinfoAttr, Bind.bind, Except.bind, htz]
      | pyStr a =>
        simp [validate_start_end, tzinfoAttr, Bind.bind, Except.bind, htz]
      | pyInt a =>
        simp [validate_start_end, tzinfoAttr, Bind.bind, Except.bind, htz]
  · subst hs
    simp [validate_start_end, tzinfoAttr, Bind.bind, Except.bind, hdt,
      Pure.pure, Except.pure]

/-- Claim C10, witness: a string start raises `AttributeError`; a string
end after an aware-datetime start raises `AttributeError`; a naive start
with a non-datetime end raises the library's validation error. -/
theorem claim10_witness :
    validate_start_end (.pyStr "x")
        (.pyDatetime ⟨2021, 1, 1, 0, 0, 0, some 0⟩) =
      .error .attributeError ∧
    validate_start_end (.pyDatetime ⟨2021, 1, 1, 0, 0, 0, some 0⟩)
        (.pyStr "x") = .error .attributeError ∧
    validate_start_end (.pyDatetime ⟨2021, 1, 1, 0, 0, 0, none⟩) (.pyInt 5) =
      .error (.pvfExc "start and end must be timezone-aware Python datetime objects.") :=
  ⟨(claim10_amended (.pyStr "x")
      (.pyDatetime ⟨2021, 1, 1, 0, 0, 0, some 0⟩)).1 rfl,
   (claim10_amended (.pyDatetime ⟨2021, 1, 1, 0, 0, 0, some 0⟩)
      (.pyStr "x")).2.1 ⟨2021, 1, 1, 0, 0, 0, some 0⟩ rfl (by decide) rfl,
   (claim10_amended (.pyDatetime ⟨2021, 1, 1, 0, 0, 0, none⟩)
      (.pyInt 5)).2.2 ⟨2021, 1, 1, 0, 0, 0, none⟩ rfl rfl⟩

end PVF
